import Mathlib

/-!
# Block database (`src/databases/block_database.cpp`)

A shallow embedding of `libbitcoin::database::block_database`, the SQLite-backed
block store, together with the properties its specification states about it.

The C++ class keeps one table, `blocks`, and six prepared statements.  The table
is modelled as the list of its rows in insertion order plus the `sqlite_sequence`
counter that `AUTOINCREMENT` maintains; each prepared statement is modelled by the
function that `sqlite3_step` computes for it.  C `int` conversions are explicit.

Reading conventions for the places where the source does not match the SQLite API:
`sqlite3_column_int32` is read as `sqlite3_column_int`; the extra `SQLITE_STATIC`
argument of `sqlite3_bind_int` is ignored; `get_max_height_block_sql_` in `top` is the
statement prepared from `get_max_height_block_sql`, which has no parameter to bind;
a digest bound with `sqlite3_bind_text` is stored, compared and read back as the
value of its 32 bytes.  Trace lines written to `std::cout` are kept only for `store`,
where the line is the sole trace of a refused insert.
-/

namespace libbitcoin
namespace database

/-! ## Machine integers -/

/-- Largest value of a `uint32_t`. -/
def max_uint32 : Nat := 4294967295

/-- Conversion of an integer value to the C type `int` (32 bits, two's complement):
what happens to an argument of `sqlite3_bind_int` and to the 64-bit column value
that `sqlite3_column_int` returns. -/
def to_int32 (n : Int) : Int := (n + 2147483648) % 4294967296 - 2147483648

/-- The conversion `static_cast<uint32_t>(...)` of an `int`. -/
def to_uint32 (i : Int) : Nat := (i % 4294967296).toNat

/-! ## Data model -/

/-- A `hash_digest`: the bytes of a 32-byte hash. -/
abbrev hash_digest := List Nat

/-- The fields of `chain::header`, each integer field a `uint32_t`. -/
structure header where
  version : Nat
  previous_block_hash : hash_digest
  merkle : hash_digest
  timestamp : Nat
  bits : Nat
  nonce : Nat
deriving DecidableEq, Repr

/-- A `chain::block` as far as the database looks at it: its header and the hashes
of its transactions in block order. -/
structure block where
  header : header
  tx_hashes : List hash_digest
deriving DecidableEq, Repr

/-- All integer header fields fit their C++ type `uint32_t`. -/
def header.fits (h : header) : Prop :=
  h.version ≤ max_uint32 ∧ h.timestamp ≤ max_uint32 ∧ h.bits ≤ max_uint32 ∧ h.nonce ≤ max_uint32

instance (h : header) : Decidable h.fits := by
  unfold header.fits; infer_instance

/-- The default-constructed `chain::header()`. -/
def header.default : header := ⟨0, [], [], 0, 0, 0⟩

/-- One row of the table `blocks` created by `block_database::create`:
`id INTEGER PRIMARY KEY AUTOINCREMENT, hash TEXT UNIQUE, height INTEGER UNIQUE,
version, prev_block, merkle, timestamp, bits, nonce`. -/
structure block_row where
  id : Int
  hash : hash_digest
  height : Int
  version : Int
  prev_block : hash_digest
  merkle : hash_digest
  timestamp : Int
  bits : Int
  nonce : Int
deriving DecidableEq, Repr

/-- The state of the SQLite database behind `block_db`: the rows of `blocks` in
insertion order and the `sqlite_sequence` entry of the table (the largest `id`
handed out so far, `0` before the first insert). -/
structure block_db where
  rows : List block_row
  seq : Int
deriving DecidableEq, Repr

/-- The `block_result` handed back by the `get` overloads. -/
structure block_result where
  found : Bool
  height : Nat
  hash : hash_digest
  header : header
  tx_hashes : List hash_digest
deriving DecidableEq, Repr

/-! ## SQLite -/

def SQLITE_CONSTRAINT : Int := 19
def SQLITE_FULL : Int := 13
def SQLITE_ROW : Int := 100
def SQLITE_DONE : Int := 101

/-- Largest rowid SQLite can assign. -/
def max_rowid : Int := 9223372036854775807

/-- What one `sqlite3_step` of a query leaves: a current row (`SQLITE_ROW`), the
end of the result set (`SQLITE_DONE`), or an error code. -/
inductive step_result (α : Type) where
  | row (columns : α)
  | done
  | error (rc : Int)
deriving DecidableEq, Repr

/-- The return code of the `sqlite3_step` call. -/
def step_result.rc {α : Type} : step_result α → Int
  | .row _ => SQLITE_ROW
  | .done => SQLITE_DONE
  | .error rc => rc

/-- First step of a `SELECT ... FROM blocks WHERE p`: the first matching row. -/
def step_select (db : block_db) (p : block_row → Bool) : step_result block_row :=
  match db.rows.find? p with
  | some r => .row r
  | none => .done

/-- Function `sqlite3_column_int`: the column value as a C `int`; `NULL` reads as `0`. -/
def sqlite3_column_int : Option Int → Int
  | none => 0
  | some v => to_int32 v

/-- Step of `insert_block_sql`,
`INSERT INTO blocks (hash, height, version, prev_block, merkle, timestamp, bits, nonce)`:
the new row gets the next `AUTOINCREMENT` id; the insert is refused, and nothing is
written, when the id range is exhausted or when a row with the same `hash` or the
same `height` exists (both columns are `UNIQUE`). -/
def step_insert_block (db : block_db) (hash : hash_digest) (height version : Int)
    (prev_block merkle : hash_digest) (timestamp bits nonce : Int) : Int × block_db :=
  if max_rowid ≤ db.seq then (SQLITE_FULL, db)
  else if db.rows.any (fun r => decide (r.hash = hash) || decide (r.height = height)) then
    (SQLITE_CONSTRAINT, db)
  else
    (SQLITE_DONE,
      { rows := db.rows ++
          [⟨db.seq + 1, hash, height, version, prev_block, merkle, timestamp, bits, nonce⟩],
        seq := db.seq + 1 })

/-- Step of `select_block_by_hash_sql`, `... FROM blocks WHERE hash = ?1`. -/
def step_select_block_by_hash (db : block_db) (hash : hash_digest) : step_result block_row :=
  step_select db (fun r => decide (r.hash = hash))

/-- Step of `select_block_by_height_sql`, `... FROM blocks WHERE id = ?1`. -/
def step_select_block_by_height (db : block_db) (p1 : Int) : step_result block_row :=
  step_select db (fun r => decide (r.id = p1))

/-- Step of `exists_block_by_height_sql`, `SELECT 1 FROM blocks WHERE id= ?1`. -/
def step_exists_block_by_height (db : block_db) (p1 : Int) : step_result Int :=
  if db.rows.any (fun r => decide (r.id = p1)) then .row 1 else .done

/-- Greatest element of a list of integers, `none` for the empty list. -/
def max_of : List Int → Option Int
  | [] => none
  | x :: xs =>
    match max_of xs with
    | none => some x
    | some m => some (if m ≤ x then x else m)

/-- Step of `get_max_height_block_sql`, `SELECT max(height) FROM blocks`: an
aggregate query always yields one row; its column is `NULL` on an empty table. -/
def step_get_max_height_block (db : block_db) : step_result (Option Int) :=
  .row (max_of (db.rows.map (fun r => r.height)))

/-! ## The operations of `block_database` -/

namespace block_database

/-- Member `block_database::create` on a new database file: the table `blocks` is created
empty and the statements are prepared; the call returns `true`. -/
def create : Bool × block_db := (true, { rows := [], seq := 0 })

/-- Member `block_database::exists(size_t height)` (`exists` is reserved in Lean): bind
`height` as parameter 1 of `exists_block_by_height_sql`, step, and report whether a
row came back. -/
def exists_ (db : block_db) (height : Nat) : Bool :=
  decide ((step_exists_block_by_height db (to_int32 height)).rc = SQLITE_ROW)

/-- The `hash` local of the not-found branches of `get`, which the source never
initialises; no statement below depends on it. -/
def unset_hash : hash_digest := []

/-- Member `block_database::get(sqlite3_stmt* stmt)`: step the statement; on a row, read
the columns back into a `block_result` with an empty `tx_hashes` vector (filling it
from the transaction database is left as a TODO in the source); otherwise
(`SQLITE_DONE` or an error code) return a not-found result. -/
def get_stmt (db : block_db) (stmt : block_db → step_result block_row) : block_result :=
  match stmt db with
  | .row r =>
    let hash := r.hash
    let height := to_uint32 (sqlite3_column_int (some r.height))
    let version := to_uint32 (sqlite3_column_int (some r.version))
    let prev_block := r.prev_block
    let merkle := r.merkle
    let timestamp := to_uint32 (sqlite3_column_int (some r.timestamp))
    let bits := to_uint32 (sqlite3_column_int (some r.bits))
    let nonce := to_uint32 (sqlite3_column_int (some r.nonce))
    let tx_hashes : List hash_digest := []
    { found := true, height := height, hash := hash,
      header := ⟨version, prev_block, merkle, timestamp, bits, nonce⟩,
      tx_hashes := tx_hashes }
  | .done =>
    { found := false, height := 0, hash := unset_hash, header := header.default,
      tx_hashes := [] }
  | .error _ =>
    { found := false, height := 0, hash := unset_hash, header := header.default,
      tx_hashes := [] }

/-- Member `block_database::get(size_t height)`: bind `height` as parameter 1 of
`select_block_by_height_sql` and read the result. -/
def get_height (db : block_db) (height : Nat) : block_result :=
  get_stmt db (fun d => step_select_block_by_height d (to_int32 height))

/-- Member `block_database::get(const hash_digest& hash)`: bind `hash` as parameter 1 of
`select_block_by_hash_sql` and read the result. -/
def get_hash (db : block_db) (hash : hash_digest) : block_result :=
  get_stmt db (fun d => step_select_block_by_hash d hash)

/-- The line `store` writes to `std::cout` when the insert is refused. -/
def failed_to_insert : String :=
  "block_database::store(const block& block, size_t height) -- Failed to Insert \n"

/-- What a call of the `void` function `store` leaves behind when it returns: the
database and the lines written to `std::cout`. -/
structure store_result where
  db : block_db
  cout : List String
deriving DecidableEq, Repr

/-- Member `block_database::store(const block& block, size_t height)`.  `hash_of` is
`chain::header::hash()`, which belongs to the libbitcoin library.  The call does not
return (`none`) when `BITCOIN_ASSERT(height <= max_uint32)` fails; otherwise the
header hash, the height and the header fields are bound (integers through
`sqlite3_bind_int`), the insert is stepped, and a refused insert is only logged. -/
def store (hash_of : header → hash_digest) (db : block_db) (b : block) (height : Nat) :
    Option store_result :=
  if height ≤ max_uint32 then
    let step := step_insert_block db (hash_of b.header) (to_int32 height)
      (to_int32 b.header.version) b.header.previous_block_hash b.header.merkle
      (to_int32 b.header.timestamp) (to_int32 b.header.bits) (to_int32 b.header.nonce)
    some { db := step.2, cout := if step.1 ≠ SQLITE_DONE then [failed_to_insert] else [] }
  else none

/-- The return code of the insert that `store` steps. -/
def store_rc (hash_of : header → hash_digest) (db : block_db) (b : block) (height : Nat) : Int :=
  (step_insert_block db (hash_of b.header) (to_int32 height)
    (to_int32 b.header.version) b.header.previous_block_hash b.header.merkle
    (to_int32 b.header.timestamp) (to_int32 b.header.bits) (to_int32 b.header.nonce)).1

/-- Member `block_database::gaps(heights& out_gaps)`: the scan is commented out in the
source; the body is `return true`. -/
def gaps (_db : block_db) (out_gaps : List Nat) : Bool × List Nat := (true, out_gaps)

/-- Member `block_database::unlink(size_t from_height)`: the truncation is commented out
in the source; the body is `return true`. -/
def unlink (db : block_db) (_from_height : Nat) : Bool × block_db := (true, db)

/-- Member `block_database::top(size_t& out_height)`: step `get_max_height_block_sql`; on a
row, write the column, read as `int` and cast to `uint32_t`, to `out_height` and
return `true`; otherwise return `false` and leave `out_height` alone. -/
def top (db : block_db) (out_height : Nat) : Bool × Nat :=
  match step_get_max_height_block db with
  | .row c => (true, to_uint32 (sqlite3_column_int c))
  | _ => (false, out_height)

/-! ## Notions of the specification -/

/-- The heights of the stored blocks, in insertion order: for each row the height
that `get` reports for it. -/
def stored_heights (db : block_db) : List Nat :=
  db.rows.map (fun r => to_uint32 (sqlite3_column_int (some r.height)))

/-- Modelled from the spec: `count()`, which the source does not define, "the number
of heights, top + 1, or 0 when empty": one more than the greatest stored height. -/
def count (db : block_db) : Nat :=
  (stored_heights db).foldr (fun h c => max (h + 1) c) 0

/-- Modelled from the spec: what `gaps` is to collect, "every height `< count()`
whose slot is empty", in increasing order. -/
def gaps_spec (db : block_db) : List Nat :=
  (List.range (count db)).filter (fun h => decide (h ∉ stored_heights db))

/-- The columns written by `store` fit a C `int`, as every value bound through
`sqlite3_bind_int` does. -/
def row_fits (r : block_row) : Prop :=
  to_int32 r.height = r.height ∧ to_int32 r.version = r.version ∧
  to_int32 r.timestamp = r.timestamp ∧ to_int32 r.bits = r.bits ∧ to_int32 r.nonce = r.nonce

instance (r : block_row) : Decidable (row_fits r) := by
  unfold row_fits; infer_instance

/-- Well-formed database: every row was written through `sqlite3_bind_int`. -/
def well_formed (db : block_db) : Prop := ∀ r ∈ db.rows, row_fits r

instance (db : block_db) : Decidable (well_formed db) := by
  unfold well_formed; infer_instance

/-! ## Sample data -/

/-- A stand-in for `chain::header::hash()` on the sample blocks below. -/
def sample_hash (h : header) : hash_digest := [h.nonce % 256, h.timestamp % 256]

def block_0 : block := { header := ⟨1, [0], [10], 100, 7, 1⟩, tx_hashes := [[10]] }
def block_1 : block := { header := ⟨1, [1, 100], [11], 101, 7, 2⟩, tx_hashes := [[20], [21]] }

/-- The database after `create`. -/
def db_new : block_db := create.2

/-- The state after `create; store(block_0, 0)`. -/
def db_0 : block_db := ((store sample_hash db_new block_0 0).map (fun r => r.db)).getD db_new

/-- The state after `create; store(block_0, 0); store(block_1, 1)`. -/
def db_01 : block_db := ((store sample_hash db_0 block_1 1).map (fun r => r.db)).getD db_0

/-- The state after `create; store(block_1, 1)`: height 0 was never stored. -/
def db_gap : block_db := ((store sample_hash db_new block_1 1).map (fun r => r.db)).getD db_new

/-- The state after `create; store(block_0, 0); store(block_1, 2147483648)`. -/
def db_high : block_db :=
  ((store sample_hash db_0 block_1 2147483648).map (fun r => r.db)).getD db_0

/-- The states the class can bring a new database to: `create`, then any number of
calls of `store` (no other member function writes to the database). -/
inductive reachable (hash_of : header → hash_digest) : block_db → Prop where
  | create : reachable hash_of create.2
  | store (db : block_db) (b : block) (height : Nat) (r : store_result) :
      reachable hash_of db → store hash_of db b height = some r → reachable hash_of r.db

/-! ## Conversions -/

theorem to_uint32_to_int32 (x : Int) : to_uint32 (to_int32 x) = to_uint32 x := by
  unfold to_uint32 to_int32; omega

theorem to_uint32_to_int32_nat (n : Nat) (h : n ≤ max_uint32) :
    to_uint32 (to_int32 n) = n := by
  unfold to_uint32 to_int32 max_uint32 at *; omega

theorem to_int32_idem (x : Int) : to_int32 (to_int32 x) = to_int32 x := by
  unfold to_int32; omega

theorem to_int32_of_to_uint32 (x : Int) (n : Nat) (hx : to_int32 x = x)
    (h : to_uint32 x = n) : to_int32 n = x := by
  unfold to_uint32 to_int32 at *; omega

/-! ## The insert statement -/

section insert
variable (db : block_db) (hash : hash_digest) (height version : Int)
  (prev_block merkle : hash_digest) (timestamp bits nonce : Int)

theorem step_insert_block_done_iff :
    (step_insert_block db hash height version prev_block merkle timestamp bits nonce).1
        = SQLITE_DONE ↔
      db.seq < max_rowid ∧ ∀ r ∈ db.rows, r.hash ≠ hash ∧ r.height ≠ height := by
  unfold step_insert_block
  split_ifs with h1 h2
  · simp [SQLITE_FULL, SQLITE_DONE]; omega
  · simp only [SQLITE_CONSTRAINT, SQLITE_DONE]
    simp only [List.any_eq_true, Bool.or_eq_true, decide_eq_true_eq] at h2
    obtain ⟨r, hr, h⟩ := h2
    constructor
    · intro h; omega
    · rintro ⟨_, hall⟩
      have := hall r hr
      tauto
  · simp only [List.any_eq_true, Bool.or_eq_true, decide_eq_true_eq, not_exists, not_and,
      not_or] at h2
    simp only [true_iff]
    exact ⟨by omega, fun r hr => h2 r hr⟩

theorem step_insert_block_db_of_done
    (h : (step_insert_block db hash height version prev_block merkle timestamp bits nonce).1
        = SQLITE_DONE) :
    (step_insert_block db hash height version prev_block merkle timestamp bits nonce).2 =
      { rows := db.rows ++
          [⟨db.seq + 1, hash, height, version, prev_block, merkle, timestamp, bits, nonce⟩],
        seq := db.seq + 1 } := by
  unfold step_insert_block at h ⊢
  split_ifs at h ⊢ with h1 h2
  · simp [SQLITE_FULL, SQLITE_DONE] at h
  · simp [SQLITE_CONSTRAINT, SQLITE_DONE] at h
  · rfl

theorem step_insert_block_db_of_not_done
    (h : (step_insert_block db hash height version prev_block merkle timestamp bits nonce).1
        ≠ SQLITE_DONE) :
    (step_insert_block db hash height version prev_block merkle timestamp bits nonce).2 = db := by
  unfold step_insert_block at h ⊢
  split_ifs at h ⊢ with h1 h2
  · rfl
  · rfl
  · simp at h

end insert

/-! ## Stored heights and `count()` -/

theorem foldr_max_succ (l : List Nat) (a : Nat) :
    l.foldr (fun h c => max (h + 1) c) a = max (l.foldr (fun h c => max (h + 1) c) 0) a := by
  induction l with
  | nil => simp
  | cons x xs ih => simp only [List.foldr_cons]; rw [ih]; omega

theorem stored_heights_append (rows : List block_row) (r : block_row) (s s' : Int) :
    stored_heights { rows := rows ++ [r], seq := s } =
      stored_heights { rows := rows, seq := s' } ++
        [to_uint32 (sqlite3_column_int (some r.height))] := by
  simp [stored_heights]

theorem count_append (rows : List block_row) (r : block_row) (s s' : Int) :
    count { rows := rows ++ [r], seq := s } =
      max (count { rows := rows, seq := s' })
        (to_uint32 (sqlite3_column_int (some r.height)) + 1) := by
  unfold count
  rw [stored_heights_append rows r s s', List.foldr_append, foldr_max_succ]
  simp

theorem lt_foldr_max_succ_of_mem (l : List Nat) (h : Nat) (hm : h ∈ l) :
    h < l.foldr (fun h c => max (h + 1) c) 0 := by
  induction l with
  | nil => simp at hm
  | cons x xs ih =>
    simp only [List.foldr_cons]
    rcases List.mem_cons.1 hm with rfl | hx
    · omega
    · have := ih hx; omega

theorem lt_count_of_mem (db : block_db) (h : Nat) (hm : h ∈ stored_heights db) :
    h < count db :=
  lt_foldr_max_succ_of_mem (stored_heights db) h hm

theorem mem_stored_heights_iff (db : block_db) (hwf : well_formed db) (H : Nat)
    (hH : H ≤ max_uint32) :
    H ∈ stored_heights db ↔ ∃ r ∈ db.rows, r.height = to_int32 H := by
  unfold stored_heights
  simp only [List.mem_map, sqlite3_column_int]
  constructor
  · rintro ⟨r, hr, h⟩
    refine ⟨r, hr, ?_⟩
    have hfit := (hwf r hr).1
    rw [hfit] at h
    exact (to_int32_of_to_uint32 r.height H hfit h).symm
  · rintro ⟨r, hr, h⟩
    refine ⟨r, hr, ?_⟩
    rw [h, to_int32_idem]
    exact to_uint32_to_int32_nat H hH

/-! ## `store` -/

theorem store_eq_some (hash_of : header → hash_digest) (db : block_db) (b : block)
    (H : Nat) (hH : H ≤ max_uint32) :
    store hash_of db b H = some
      { db := (step_insert_block db (hash_of b.header) (to_int32 H)
          (to_int32 b.header.version) b.header.previous_block_hash b.header.merkle
          (to_int32 b.header.timestamp) (to_int32 b.header.bits)
          (to_int32 b.header.nonce)).2,
        cout := if store_rc hash_of db b H ≠ SQLITE_DONE then [failed_to_insert] else [] } := by
  simp [store, store_rc, hH]

theorem store_rc_done_iff (hash_of : header → hash_digest) (db : block_db) (b : block)
    (H : Nat) (hH : H ≤ max_uint32) (hwf : well_formed db) :
    store_rc hash_of db b H = SQLITE_DONE ↔
      db.seq < max_rowid ∧ H ∉ stored_heights db ∧
        hash_of b.header ∉ db.rows.map (fun x => x.hash) := by
  unfold store_rc
  rw [step_insert_block_done_iff, mem_stored_heights_iff db hwf H hH]
  simp only [List.mem_map, not_exists, not_and]
  constructor
  · rintro ⟨h1, h2⟩
    exact ⟨h1, fun r hr => (h2 r hr).2, fun r hr => (h2 r hr).1⟩
  · rintro ⟨h1, h2, h3⟩
    exact ⟨h1, fun r hr => ⟨h3 r hr, h2 r hr⟩⟩

theorem well_formed_create : well_formed create.2 := by
  intro r hr; simp [create] at hr

theorem well_formed_store (hash_of : header → hash_digest) (db : block_db) (b : block)
    (H : Nat) (r : store_result) (hwf : well_formed db)
    (hs : store hash_of db b H = some r) : well_formed r.db := by
  unfold store at hs
  split_ifs at hs with hH
  simp only [Option.some.injEq] at hs
  subst hs
  simp only
  by_cases hrc : (step_insert_block db (hash_of b.header) (to_int32 H)
      (to_int32 b.header.version) b.header.previous_block_hash b.header.merkle
      (to_int32 b.header.timestamp) (to_int32 b.header.bits)
      (to_int32 b.header.nonce)).1 = SQLITE_DONE
  · rw [step_insert_block_db_of_done _ _ _ _ _ _ _ _ _ hrc]
    intro x hx
    simp only [List.mem_append, List.mem_singleton] at hx
    rcases hx with hx | rfl
    · exact hwf x hx
    · simp [row_fits, to_int32_idem]
  · rw [step_insert_block_db_of_not_done _ _ _ _ _ _ _ _ _ hrc]
    exact hwf

theorem reachable_well_formed (hash_of : header → hash_digest) (db : block_db)
    (h : reachable hash_of db) : well_formed db := by
  induction h with
  | create => exact well_formed_create
  | store db b height r _ hs ih => exact well_formed_store hash_of db b height r ih hs

theorem store_rc_constraint (hash_of : header → hash_digest) (db : block_db) (b : block)
    (H : Nat) (hseq : db.seq < max_rowid)
    (hdup : ∃ r ∈ db.rows, r.hash = hash_of b.header ∨ r.height = to_int32 H) :
    store_rc hash_of db b H = SQLITE_CONSTRAINT := by
  unfold store_rc step_insert_block
  have h1 : ¬ max_rowid ≤ db.seq := by omega
  have h2 : db.rows.any (fun r => decide (r.hash = hash_of b.header) ||
      decide (r.height = to_int32 H)) = true := by
    simpa only [List.any_eq_true, Bool.or_eq_true, decide_eq_true_eq] using hdup
  simp [h1, h2]

/-- C3 (amended): for a height `H <= max_uint32`, on a well-formed database whose id
sequence is not exhausted, `store(B, H)` returns, and it adds `B` exactly when no
stored block has height `H` and none has `B`'s header hash, whether or not `H` equals
`count()`.  After an accepted store the table has one more row, holding `B`'s hash,
height and header fields; `count()` is the larger of its old value and `H + 1`, hence
`H + 1` when `H` was at least `count()`.  A refused store leaves the database
unchanged. -/
theorem store_adds_iff_height_and_hash_unused (hash_of : header → hash_digest)
    (db : block_db) (b : block) (H : Nat) (hH : H ≤ max_uint32) (hwf : well_formed db)
    (hseq : db.seq < max_rowid) :
    ∃ r, store hash_of db b H = some r ∧
      (store_rc hash_of db b H = SQLITE_DONE ↔
        H ∉ stored_heights db ∧ hash_of b.header ∉ db.rows.map (fun x => x.hash)) ∧
      (store_rc hash_of db b H = SQLITE_DONE →
        r.db.rows = db.rows ++
          [⟨db.seq + 1, hash_of b.header, to_int32 H, to_int32 b.header.version,
            b.header.previous_block_hash, b.header.merkle, to_int32 b.header.timestamp,
            to_int32 b.header.bits, to_int32 b.header.nonce⟩] ∧
        stored_heights r.db = stored_heights db ++ [H] ∧
        count r.db = max (count db) (H + 1) ∧
        (count db ≤ H → count r.db = H + 1)) ∧
      (store_rc hash_of db b H ≠ SQLITE_DONE → r.db = db) := by
  refine ⟨_, store_eq_some hash_of db b H hH, ?_, ?_, ?_⟩
  · rw [store_rc_done_iff hash_of db b H hH hwf]
    exact ⟨fun h => h.2, fun h => ⟨hseq, h⟩⟩
  · intro hrc
    have hdb := step_insert_block_db_of_done db (hash_of b.header) (to_int32 H)
      (to_int32 b.header.version) b.header.previous_block_hash b.header.merkle
      (to_int32 b.header.timestamp) (to_int32 b.header.bits) (to_int32 b.header.nonce) hrc
    have hh : to_uint32 (sqlite3_column_int (some (to_int32 (H : Int)))) = H := by
      simp only [sqlite3_column_int, to_int32_idem]
      exact to_uint32_to_int32_nat H hH
    simp only [hdb]
    refine ⟨trivial, ?_, ?_, ?_⟩
    · rw [stored_heights_append _ _ _ db.seq, hh]
    · rw [count_append _ _ _ db.seq, hh]
    · intro hle
      rw [count_append _ _ _ db.seq, hh]
      have : count { rows := db.rows, seq := db.seq } = count db := rfl
      omega
  · intro hrc
    exact step_insert_block_db_of_not_done db (hash_of b.header) (to_int32 H)
      (to_int32 b.header.version) b.header.previous_block_hash b.header.merkle
      (to_int32 b.header.timestamp) (to_int32 b.header.bits) (to_int32 b.header.nonce) hrc

/-- C3 (witness): the amended statement at `store(block_0, 5)` on a new database. -/
theorem store_adds_iff_height_and_hash_unused_witness :
    (5 ≤ max_uint32 ∧ well_formed db_new ∧ db_new.seq < max_rowid) ∧
    ∃ r, store sample_hash db_new block_0 5 = some r ∧
      (store_rc sample_hash db_new block_0 5 = SQLITE_DONE ↔
        5 ∉ stored_heights db_new ∧
          sample_hash block_0.header ∉ db_new.rows.map (fun x => x.hash)) ∧
      (store_rc sample_hash db_new block_0 5 = SQLITE_DONE →
        r.db.rows = db_new.rows ++
          [⟨db_new.seq + 1, sample_hash block_0.header, to_int32 (5 : Nat),
            to_int32 block_0.header.version, block_0.header.previous_block_hash,
            block_0.header.merkle, to_int32 block_0.header.timestamp,
            to_int32 block_0.header.bits, to_int32 block_0.header.nonce⟩] ∧
        stored_heights r.db = stored_heights db_new ++ [5] ∧
        count r.db = max (count db_new) (5 + 1) ∧
        (count db_new ≤ 5 → count r.db = 5 + 1)) ∧
      (store_rc sample_hash db_new block_0 5 ≠ SQLITE_DONE → r.db = db_new) :=
  ⟨⟨by decide, by decide, by decide⟩,
    store_adds_iff_height_and_hash_unused sample_hash db_new block_0 5
      (by decide) (by decide) (by decide)⟩

/-- C3 (counterexample): on a new database `count()` is 0, yet `store(block_0, 5)` is
accepted and changes the database; and `store(block_0, 0)` into the database that
holds only height 1 is accepted and leaves `count()` at 2, not at `0 + 1`. -/
theorem store_out_of_order_accepted :
    count db_new = 0 ∧
    store_rc sample_hash db_new block_0 5 = SQLITE_DONE ∧
    (store sample_hash db_new block_0 5).map (fun r => stored_heights r.db) = some [5] ∧
    (store sample_hash db_new block_0 5).map (fun r => r.db) ≠ some db_new ∧
    count db_gap = 2 ∧
    store_rc sample_hash db_gap block_0 0 = SQLITE_DONE ∧
    (store sample_hash db_gap block_0 0).map (fun r => count r.db) = some 2 := by
  decide

/-- C4 (amended): for a height `H <= max_uint32` at which a well-formed database
already holds a block, `store(B, H)` of any block `B` returns normally, the insert
having been refused (with `SQLITE_CONSTRAINT` unless the id sequence is exhausted);
the refusal is written to `std::cout` and not handed to the caller, and nothing is
mutated: the database, hence the stored heights and `count()`, is as before. -/
theorem store_duplicate_height_no_mutation (hash_of : header → hash_digest)
    (db : block_db) (b : block) (H : Nat) (hH : H ≤ max_uint32) (hwf : well_formed db)
    (hdup : H ∈ stored_heights db) :
    store hash_of db b H = some { db := db, cout := [failed_to_insert] } ∧
    store_rc hash_of db b H ≠ SQLITE_DONE ∧
    (db.seq < max_rowid → store_rc hash_of db b H = SQLITE_CONSTRAINT) ∧
    ∀ r, store hash_of db b H = some r →
      r.db = db ∧ stored_heights r.db = stored_heights db ∧ count r.db = count db := by
  have hrc : store_rc hash_of db b H ≠ SQLITE_DONE := by
    rw [Ne, store_rc_done_iff hash_of db b H hH hwf]
    tauto
  have hst : store hash_of db b H = some { db := db, cout := [failed_to_insert] } := by
    rw [store_eq_some hash_of db b H hH, step_insert_block_db_of_not_done _ _ _ _ _ _ _ _ _ hrc]
    simp [hrc]
  refine ⟨hst, hrc, ?_, ?_⟩
  · intro hseq
    obtain ⟨r, hr, hh⟩ := (mem_stored_heights_iff db hwf H hH).1 hdup
    exact store_rc_constraint hash_of db b H hseq ⟨r, hr, Or.inr hh⟩
  · intro r hr
    rw [hst] at hr
    simp only [Option.some.injEq] at hr
    subst hr
    exact ⟨rfl, rfl, rfl⟩

/-- C4 (witness): storing `block_1` at height 0, where `block_0` is already stored. -/
theorem store_duplicate_height_no_mutation_witness :
    (0 ≤ max_uint32 ∧ well_formed db_0 ∧ 0 ∈ stored_heights db_0) ∧
    store sample_hash db_0 block_1 0 = some { db := db_0, cout := [failed_to_insert] } ∧
    store_rc sample_hash db_0 block_1 0 ≠ SQLITE_DONE ∧
    (db_0.seq < max_rowid → store_rc sample_hash db_0 block_1 0 = SQLITE_CONSTRAINT) ∧
    ∀ r, store sample_hash db_0 block_1 0 = some r →
      r.db = db_0 ∧ stored_heights r.db = stored_heights db_0 ∧ count r.db = count db_0 :=
  ⟨⟨by decide, by decide, by decide⟩,
    store_duplicate_height_no_mutation sample_hash db_0 block_1 0
      (by decide) (by decide) (by decide)⟩

/-- C4 (counterexample): the second `store(block_0, 0)` does not fail towards its
caller.  The insert is refused with `SQLITE_CONSTRAINT`, but the call returns
normally, as the first, accepted call did; what tells the two apart is a line on
`std::cout`. -/
theorem store_duplicate_height_not_reported :
    store sample_hash db_new block_0 0 = some { db := db_0, cout := [] } ∧
    store_rc sample_hash db_new block_0 0 = SQLITE_DONE ∧
    store sample_hash db_0 block_0 0 = some { db := db_0, cout := [failed_to_insert] } ∧
    store_rc sample_hash db_0 block_0 0 = SQLITE_CONSTRAINT ∧
    count db_0 = 1 := by
  decide

/-! ## `get` -/

/-- After an accepted `store(B, H)` of a block whose header fields are `uint32_t`
values, `get(hash of B)` finds a block with height `H`, `B`'s hash and `B`'s header
fields; its list of transaction hashes is empty. -/
theorem get_hash_after_store (hash_of : header → hash_digest) (db : block_db) (b : block)
    (H : Nat) (r : store_result) (hH : H ≤ max_uint32) (hfit : b.header.fits)
    (hs : store hash_of db b H = some r)
    (hrc : store_rc hash_of db b H = SQLITE_DONE) :
    get_hash r.db (hash_of b.header) =
      { found := true, height := H, hash := hash_of b.header, header := b.header,
        tx_hashes := [] } := by
  rw [store_eq_some hash_of db b H hH] at hs
  simp only [Option.some.injEq] at hs
  subst hs
  have hdb := step_insert_block_db_of_done db (hash_of b.header) (to_int32 H)
    (to_int32 b.header.version) b.header.previous_block_hash b.header.merkle
    (to_int32 b.header.timestamp) (to_int32 b.header.bits) (to_int32 b.header.nonce) hrc
  have hnone : db.rows.find? (fun x => decide (x.hash = hash_of b.header)) = none := by
    rw [List.find?_eq_none]
    intro x hx
    have := ((step_insert_block_done_iff db (hash_of b.header) (to_int32 H)
      (to_int32 b.header.version) b.header.previous_block_hash b.header.merkle
      (to_int32 b.header.timestamp) (to_int32 b.header.bits)
      (to_int32 b.header.nonce)).1 hrc).2 x hx
    simpa using this.1
  obtain ⟨hv, ht, hb, hn⟩ := hfit
  simp only [hdb, get_hash, get_stmt, step_select_block_by_hash, step_select,
    List.find?_append, hnone, Option.none_or, List.find?_cons, decide_True,
    sqlite3_column_int, to_int32_idem]
  rw [to_uint32_to_int32_nat H hH, to_uint32_to_int32_nat _ hv, to_uint32_to_int32_nat _ ht,
    to_uint32_to_int32_nat _ hb, to_uint32_to_int32_nat _ hn]

/-- C1 (failing input): after `create; store(block_0, 0)`, accepted, a block is
stored at height 0 but `get(0)` reports not-found: the query selects on `id`, and
the first id is 1.  `get(1)` returns `block_0` (height 0), and with no transaction
hashes. -/
theorem get_height_misses_stored_block :
    store_rc sample_hash db_new block_0 0 = SQLITE_DONE ∧
    store sample_hash db_new block_0 0 = some { db := db_0, cout := [] } ∧
    stored_heights db_0 = [0] ∧
    (get_height db_0 0).found = false ∧
    get_height db_0 1 =
      { found := true, height := 0, hash := sample_hash block_0.header,
        header := block_0.header, tx_hashes := [] } := by
  decide

/-- C2 (failing input): after `create; store(block_0, 0)`, accepted, `get(hash of
block_0)` finds the block with its height, hash and header fields, but the returned
list of transaction hashes is empty, while `block_0` has one transaction. -/
theorem get_hash_drops_tx_hashes :
    store_rc sample_hash db_new block_0 0 = SQLITE_DONE ∧
    store sample_hash db_new block_0 0 = some { db := db_0, cout := [] } ∧
    get_hash db_0 (sample_hash block_0.header) =
      { found := true, height := 0, hash := sample_hash block_0.header,
        header := block_0.header, tx_hashes := [] } ∧
    block_0.tx_hashes = [[10]] ∧
    (get_hash db_0 (sample_hash block_0.header)).tx_hashes ≠ block_0.tx_hashes := by
  decide

/-! ## `unlink`, `gaps`, `top`, `exists` -/

/-- C5 (failing input): with blocks stored at heights 0 and 1, `unlink(1)` returns
`true` and leaves the database as it was: `count()` is still 2, not 1, and
`get(hash of block_1)` still finds the block at height 1. -/
theorem unlink_does_not_truncate :
    store sample_hash db_0 block_1 1 = some { db := db_01, cout := [] } ∧
    stored_heights db_01 = [0, 1] ∧ count db_01 = 2 ∧
    unlink db_01 1 = (true, db_01) ∧
    count (unlink db_01 1).2 = 2 ∧
    (get_hash (unlink db_01 1).2 (sample_hash block_1.header)).found = true ∧
    (get_hash (unlink db_01 1).2 (sample_hash block_1.header)).height = 1 := by
  decide

/-- C6 (failing input): on a new database `count()` is 0, and `unlink(0)`, whose
argument is not below `count()`, returns `true`, not `false`. -/
theorem unlink_returns_true_at_count :
    db_new.rows = [] ∧ count db_new = 0 ∧ ¬ (0 < count db_new) ∧
    unlink db_new 0 = (true, db_new) := by
  decide

/-- C7 (failing input): after `create; store(block_1, 1)` the only stored height is
1, `count()` is 2 and height 0 is a gap, but `gaps` adds nothing to its output. -/
theorem gaps_reports_nothing :
    store sample_hash db_new block_1 1 = some { db := db_gap, cout := [] } ∧
    store_rc sample_hash db_new block_1 1 = SQLITE_DONE ∧
    stored_heights db_gap = [1] ∧ count db_gap = 2 ∧ gaps_spec db_gap = [0] ∧
    gaps db_gap [] = (true, []) := by
  decide

/-- Member `top` never takes its `return false` branch. -/
theorem top_returns_true (db : block_db) (out_height : Nat) : (top db out_height).1 = true := by
  simp [top, step_get_max_height_block]

theorem max_of_heights (rows : List block_row) (hne : rows ≠ [])
    (hlow : ∀ r ∈ rows, 0 ≤ r.height ∧ r.height < 2147483648) :
    ∃ m : Nat, max_of (rows.map (fun r => r.height)) = some (m : Int) ∧ m < 2147483648 ∧
      (rows.map (fun r => to_uint32 (sqlite3_column_int (some r.height)))).foldr
        (fun h c => max (h + 1) c) 0 = m + 1 := by
  induction rows with
  | nil => exact absurd rfl hne
  | cons x xs ih =>
    obtain ⟨hx0, hx1⟩ := hlow x (List.mem_cons_self x xs)
    have hxh : ((to_uint32 (sqlite3_column_int (some x.height)) : Nat) : Int) = x.height := by
      simp only [sqlite3_column_int, to_uint32, to_int32]; omega
    by_cases hxs : xs = []
    · subst hxs
      refine ⟨to_uint32 (sqlite3_column_int (some x.height)), ?_, ?_, ?_⟩
      · simp [max_of, hxh]
      · omega
      · simp
    · obtain ⟨m, hm, hmlt, hg⟩ := ih hxs (fun r hr => hlow r (List.mem_cons_of_mem x hr))
      by_cases hle : (m : Int) ≤ x.height
      · refine ⟨to_uint32 (sqlite3_column_int (some x.height)), ?_, ?_, ?_⟩
        · simp [max_of, hm, hle, hxh]
        · omega
        · simp only [List.map_cons, List.foldr_cons, hg]; omega
      · refine ⟨m, ?_, hmlt, ?_⟩
        · simp [max_of, hm, hle]
        · simp only [List.map_cons, List.foldr_cons, hg]; omega

/-- On a well-formed database that holds at least one block and only heights below
2147483648, `top` returns `true` and reports the greatest stored height,
`count() - 1`, whatever lower heights are missing. -/
theorem top_eq_greatest_height (db : block_db) (out_height : Nat) (hwf : well_formed db)
    (hne : db.rows ≠ []) (hlow : ∀ h ∈ stored_heights db, h < 2147483648) :
    top db out_height = (true, count db - 1) := by
  have hrows : ∀ r ∈ db.rows, 0 ≤ r.height ∧ r.height < 2147483648 := by
    intro r hr
    have h1 := (hwf r hr).1
    have h2 := hlow (to_uint32 (sqlite3_column_int (some r.height)))
      (List.mem_map.2 ⟨r, hr, rfl⟩)
    simp only [sqlite3_column_int, to_uint32, to_int32] at h1 h2
    omega
  obtain ⟨m, hm, hmlt, hg⟩ := max_of_heights db.rows hne hrows
  have hc : count db = m + 1 := hg
  have hm32 : to_uint32 (to_int32 (m : Int)) = m := by
    simp only [to_uint32, to_int32]; omega
  simp [top, step_get_max_height_block, hm, sqlite3_column_int, hc, hm32]

/-- C8 (failing input): on a new database, with no block stored, `top` returns
`true` and sets the height to 0: the aggregate query yields a row holding `NULL`. -/
theorem top_new_database_reports_zero :
    db_new.rows = [] ∧ step_get_max_height_block db_new = .row none ∧
    top db_new 99 = (true, 0) := by
  decide

/-- C9 (failing input): after `create; store(block_0, 0); store(block_1, 2147483648)`,
both accepted, the greatest stored height is 2147483648, but `top` reports 0: the
height column holds the C `int` -2147483648, which is below 0. -/
theorem top_misses_height_above_int_max :
    2147483648 ≤ max_uint32 ∧
    store sample_hash db_0 block_1 2147483648 = some { db := db_high, cout := [] } ∧
    store_rc sample_hash db_0 block_1 2147483648 = SQLITE_DONE ∧
    stored_heights db_high = [0, 2147483648] ∧
    (get_hash db_high (sample_hash block_1.header)).height = 2147483648 ∧
    db_high.rows.map (fun r => r.height) = [0, -2147483648] ∧
    top db_high 99 = (true, 0) := by
  decide

/-- C10 (failing input): after `create; store(block_0, 0)`, accepted, a block is
stored at height 0 and `0 < count()`, but `exists(0)` is false; `exists(1)` is true
although nothing is stored at height 1.  The query selects on `id`. -/
theorem exists_misses_stored_height :
    store sample_hash db_new block_0 0 = some { db := db_0, cout := [] } ∧
    store_rc sample_hash db_new block_0 0 = SQLITE_DONE ∧
    stored_heights db_0 = [0] ∧ count db_0 = 1 ∧
    exists_ db_0 0 = false ∧ exists_ db_0 1 = true := by
  decide

end block_database

end database
end libbitcoin
